import Mathlib

/-!
Shallow embedding of the GithubRepoSummarizer service: the retry loop of
`LLMClient.summarize` in `app/llm_client.py`, the `/summarize` endpoint
orchestration of `app/main.py`, and a context assembler modelled from the
design document (`app/repo_processor.py` is not among the available sources).
-/

namespace GhSummarizer

/-- Python substring test `sub in s`, as a proposition on the character data. -/
def pyIn (sub s : String) : Prop := sub.data <:+: s.data

instance (sub s : String) : Decidable (pyIn sub s) :=
  inferInstanceAs (Decidable (sub.data <:+: s.data))

/-- ASCII lowering, embedding Python `str.lower` (every string any claim
inspects is ASCII, where the two functions agree). -/
def lowerStr (s : String) : String := ⟨s.data.map Char.toLower⟩

/-- A parsed JSON value, as returned by `json.loads`.  Numbers are embedded as
integers; no claim involves fractional values. -/
inductive JValue where
  | str (s : String)
  | num (n : Int)
  | bool (b : Bool)
  | null
  | arr (xs : List JValue)
  | obj (fields : List (String × JValue))

/-- Python `==` on hashable JSON scalars, including the cross-type equalities
`True == 1` and `False == 0`. -/
def pyEq : JValue → JValue → Bool
  | .str a, .str b => a == b
  | .num a, .num b => a == b
  | .bool a, .bool b => a == b
  | .bool a, .num b => (if a then (1 : Int) else 0) == b
  | .num a, .bool b => a == (if b then (1 : Int) else 0)
  | .null, .null => true
  | _, _ => false

/-- Hashability of a JSON value: `set()` raises `TypeError` when handed a list
or dict element. -/
def pyHashable : JValue → Bool
  | .arr _ => false
  | .obj _ => false
  | _ => true

/-- Insertion into a Python set, element by element, keeping the first
representative of each equality class.  CPython's set iteration order is
hash-seed dependent and unspecified; the model fixes first-insertion order, and
no claim below relies on that order. -/
def pySetAux (seen : List JValue) : List JValue → List JValue
  | [] => []
  | a :: rest =>
      if seen.any (pyEq a) then pySetAux seen rest
      else a :: pySetAux (a :: seen) rest

/-- `list(set(v))` for a JSON value `v`: iterating a list yields its elements
(`TypeError` when one is unhashable), a string yields its one-character
substrings, a dict yields its keys; numbers, booleans and `null` are not
iterable (`TypeError`). -/
def pySetList : JValue → Option (List JValue)
  | .arr xs => if xs.all pyHashable then some (pySetAux [] xs) else none
  | .str s => some (pySetAux [] (s.data.map fun c => JValue.str (String.singleton c)))
  | .obj fs => some (pySetAux [] (fs.map fun p => JValue.str p.1))
  | _ => none

/-- Modelled from the spec: `app/models.py` is not among the sources.  §3
SummaryResult: `{ summary: string, technologies: sequence of string,
structure: string }` (pydantic model `SummarizeResponse`; the third field is
named `structureText` here because `structure` is a Lean keyword). -/
structure SummarizeResponse where
  summary : String
  technologies : List String
  structureText : String
  deriving Repr, DecidableEq

/-- `dict.get` on the object produced by `json.loads`; a later duplicate key in
the raw text overwrites an earlier one, so lookup takes the last binding. -/
def lookupField (fs : List (String × JValue)) (k : String) : Option JValue :=
  fs.foldl (fun acc p => if p.1 == k then some p.2 else acc) none

/-- pydantic validation of `technologies: list[str]`: every element must be a
string (pydantic v2 does not coerce numbers or booleans to `str`). -/
def allStrings : List JValue → Option (List String)
  | [] => some []
  | .str s :: rest => (allStrings rest).map (s :: ·)
  | _ => none

/-- Field extraction of `LLMClient.summarize` (`app/llm_client.py` lines
103-107): `data.get("summary", "")`, `list(set(data.get("technologies", [])))`,
`data.get("structure", "")`, then pydantic construction of
`SummarizeResponse`.  `none` is the exception path: `data.get` raises
`AttributeError` when `data` is not a dict, `set()` raises `TypeError` on a
non-iterable or unhashable argument, and pydantic rejects non-string field
values; every such exception is caught by the surrounding `except` block and
treated as a parse failure. -/
def extract (data : JValue) : Option SummarizeResponse :=
  match data with
  | .obj fs =>
      match pySetList ((lookupField fs "technologies").getD (.arr [])) with
      | none => none
      | some elems =>
          match (lookupField fs "summary").getD (.str ""),
              (lookupField fs "structure").getD (.str ""), allStrings elems with
          | .str s, .str t, some techs => some ⟨s, techs, t⟩
          | _, _, _ => none
  | _ => none

/-- The observable body of one successful chat-completion call, represented by
the outcome of `json.loads` on `response.choices[0].message.content` (the JSON
grammar itself lives in the Python standard library, outside this repository):
the content is missing or empty (`not raw`), fails to decode, or decodes to a
value. -/
inductive ReplyContent where
  | empty
  | notJson (raw : String)
  | json (v : JValue)

/-- The outcome of one `chat.completions.create` call: the call raises at the
transport/API level, or returns a reply body. -/
inductive CallOutcome where
  | transportError (msg : String)
  | reply (content : ReplyContent)

/-- The parse/validation stage of one loop iteration (`app/llm_client.py`
lines 96-107): empty content raises `ValueError("LLM returned an empty
response")`, undecodable content raises `json.JSONDecodeError`, and a decoded
value goes through `extract`.  The exception text of the two latter cases is
abridged; no claim depends on the parse-failure messages. -/
def parseReply : ReplyContent → Except String SummarizeResponse
  | .empty => .error "LLM returned an empty response"
  | .notJson _ => .error "Expecting value"
  | .json v =>
      match extract v with
      | some r => .ok r
      | none => .error "response field extraction/validation failed"

/-- `max_json_retries = 3` (`app/llm_client.py` line 72). -/
def maxJsonRetries : Nat := 3

/-- The retry loop of `LLMClient.summarize` (`app/llm_client.py` lines 73-124)
over the stream of call outcomes, carrying the 1-based attempt counter and the
remaining loop iterations.  The result pairs the returned value or raised
`LLMError` message with the number of model calls performed. -/
def summarizeAux (calls : Nat → CallOutcome) :
    Nat → Nat → Except String SummarizeResponse × Nat
  | attempt, 0 => (.error "LLM returned invalid JSON", attempt - 1)
  | attempt, fuel + 1 =>
      match calls attempt with
      | .transportError e => (.error ("LLM API call failed: " ++ e), attempt)
      | .reply c =>
          match parseReply c with
          | .ok r => (.ok r, attempt)
          | .error e =>
              if attempt = maxJsonRetries then
                (.error ("LLM response parse/validation failed after 3 attempts: " ++ e),
                 attempt)
              else
                summarizeAux calls (attempt + 1) fuel

/-- `LLMClient.summarize` as a function of the call-outcome stream, starting at
attempt 1 with `max_json_retries` iterations available. -/
def summarizeModel (calls : Nat → CallOutcome) :
    Except String SummarizeResponse × Nat :=
  summarizeAux calls 1 maxJsonRetries

/-- A call outcome that enters the retry branch: the call itself succeeded but
its body failed the parse/validation stage. -/
def callParseFails : CallOutcome → Bool
  | .transportError _ => false
  | .reply c =>
      match parseReply c with
      | .ok _ => false
      | .error _ => true

/-- A call outcome whose body is empty or fails JSON decoding (the two parse
failures the spec's retry clause names). -/
def isEmptyOrNotJson : CallOutcome → Bool
  | .reply .empty => true
  | .reply (.notJson _) => true
  | _ => false

/-- Modelled from the spec: `app/github_client.py` is not among the sources.
§3 RepoFile carries a path and a size; the opaque content reference plays no
role in any claim. -/
structure RepoFile where
  path : String
  size : Nat
  deriving Repr, DecidableEq

/-- The outcome of one awaited repository operation inside the fetch phase of
the endpoint (`app/main.py` lines 72-103): a value, a raised
`GitHubClientError` with its message, or any other raised exception with its
message. -/
inductive FetchOutcome (α : Type) where
  | ok (a : α)
  | ghError (msg : String)
  | unexpected (msg : String)

/-- The outcome of `llm.summarize` as observed by the endpoint (`app/main.py`
lines 107-136): a response, a raised `LLMError` with its message, or any other
raised exception with its message. -/
inductive LLMOutcome where
  | ok (r : SummarizeResponse)
  | llmError (msg : String)
  | unexpected (msg : String)

/-- The awaited operations the `/summarize` handler can perform, in program
order: the two GitHub lookups, the context assembly (which performs the
content fetches), and the LLM summarization call. -/
inductive Op where
  | getDefaultBranch
  | getRepoTree
  | collectContext
  | llmSummarize
  deriving Repr, DecidableEq

/-- Body of an endpoint reply: a `SummarizeResponse`, or an `ErrorResponse`
message. -/
inductive RespBody where
  | ok (r : SummarizeResponse)
  | err (message : String)
  deriving Repr, DecidableEq

/-- An HTTP reply of the `/summarize` handler with the ordered trace of awaited
operations the handler performed before replying. -/
structure EndpointResult where
  status : Nat
  body : RespBody
  ops : List Op
  deriving Repr, DecidableEq

/-- The environment one `/summarize` request runs against: the
`NEBIUS_API_KEY` value and the outcome each awaited operation would have. -/
structure Env where
  nebiusApiKey : String
  branchOutcome : FetchOutcome String
  treeOutcome : FetchOutcome (List RepoFile)
  contextOutcome : FetchOutcome String
  llmOutcome : LLMOutcome

/-- `HTTPException` detail raised by `_get_llm_client` (`app/main.py` lines
42-48) when the key is missing or empty. -/
def keyMissingMsg : String :=
  "NEBIUS_API_KEY is not set. Set it in your environment (or .env), restart/reload the server, then retry."

/-- Fixed body returned for an authentication-flavored `LLMError`
(`app/main.py` lines 114-122). -/
def llmAuthMsg : String :=
  "LLM provider authentication failed. Check NEBIUS_API_KEY and restart/reload the server if .env was changed."

/-- Fixed body returned for any other `LLMError` (`app/main.py` lines
123-128). -/
def llmGenericMsg : String :=
  "LLM processing failed. Check server logs for details."

/-- `_is_llm_auth_error` (`app/main.py` lines 34-36): any of three keywords
occurs in the lowered error text. -/
def isLlmAuthError (msg : String) : Prop :=
  pyIn "authenticate" (lowerStr msg) ∨ pyIn "authentication" (lowerStr msg) ∨
    pyIn "unauthorized" (lowerStr msg)

instance (msg : String) : Decidable (isLlmAuthError msg) :=
  inferInstanceAs (Decidable (_ ∨ _ ∨ _))

/-- Status chosen for a `GitHubClientError` (`app/main.py` line 91): 404 when
"not found" occurs in the lowered message, else 502. -/
def ghErrorStatus (msg : String) : Nat :=
  if pyIn "not found" (lowerStr msg) then 404 else 502

/-- The `/summarize` handler of `app/main.py` (lines 64-136) over an
environment, together with the exception handlers registered on the app: the
`HTTPException` raised by `_get_llm_client` before the fetch phase is turned
into a reply with its status and detail (lines 151-157).  The GitHub client is
constructed without performing any operation; the key check happens before the
first awaited repository operation. -/
def endpointRun (env : Env) : EndpointResult :=
  if env.nebiusApiKey = "" then
    { status := 500, body := .err keyMissingMsg, ops := [] }
  else
    match env.branchOutcome with
    | .ghError m => { status := ghErrorStatus m, body := .err m, ops := [.getDefaultBranch] }
    | .unexpected m =>
        { status := 502, body := .err ("Failed to fetch repository data: " ++ m),
          ops := [.getDefaultBranch] }
    | .ok _branch =>
        match env.treeOutcome with
        | .ghError m =>
            { status := ghErrorStatus m, body := .err m,
              ops := [.getDefaultBranch, .getRepoTree] }
        | .unexpected m =>
            { status := 502, body := .err ("Failed to fetch repository data: " ++ m),
              ops := [.getDefaultBranch, .getRepoTree] }
        | .ok files =>
            if files.isEmpty then
              { status := 400, body := .err "Repository appears to be empty.",
                ops := [.getDefaultBranch, .getRepoTree] }
            else
              match env.contextOutcome with
              | .ghError m =>
                  { status := ghErrorStatus m, body := .err m,
                    ops := [.getDefaultBranch, .getRepoTree, .collectContext] }
              | .unexpected m =>
                  { status := 502,
                    body := .err ("Failed to fetch repository data: " ++ m),
                    ops := [.getDefaultBranch, .getRepoTree, .collectContext] }
              | .ok _context =>
                  match env.llmOutcome with
                  | .ok r =>
                      { status := 200, body := .ok r,
                        ops := [.getDefaultBranch, .getRepoTree, .collectContext, .llmSummarize] }
                  | .llmError m =>
                      if isLlmAuthError m then
                        { status := 500, body := .err llmAuthMsg,
                          ops := [.getDefaultBranch, .getRepoTree, .collectContext, .llmSummarize] }
                      else
                        { status := 502, body := .err llmGenericMsg,
                          ops := [.getDefaultBranch, .getRepoTree, .collectContext, .llmSummarize] }
                  | .unexpected m =>
                      { status := 500,
                        body := .err ("Internal error during summarization: " ++ m),
                        ops := [.getDefaultBranch, .getRepoTree, .collectContext, .llmSummarize] }

/-- Modelled from the spec: `app/repo_processor.py` (`collect_repo_context`)
is not among the sources.  §4.1 output format: a `## Directory Structure`
section listing every file path, followed by a per-file content section for
the selected subset, each block labeled by its path.  The selection policy is
left open by the design document (§9), so the selected files with their
fetched contents are a parameter; the claims hold for every selection. -/
def joinLines : List String → String
  | [] => ""
  | s :: rest => s ++ "\n" ++ joinLines rest

/-- Modelled from the spec: the directory-structure section lists every input
file path (§4.1, "listing every file path (not just the selected subset)"). -/
def renderDirectory (files : List RepoFile) : String :=
  "## Directory Structure\n" ++ joinLines (files.map fun f => f.path)

/-- Modelled from the spec: the content section delimits each included file's
content by its path (§4.1). -/
def renderContents (sel : List (RepoFile × String)) : String :=
  joinLines (sel.map fun fc => "### " ++ fc.1.path ++ "\n" ++ fc.2)

/-- Modelled from the spec: `assemble` renders the directory section over all
files followed by the content section over the selected files. -/
def assemble (files : List RepoFile) (sel : List (RepoFile × String)) : String :=
  renderDirectory files ++ "\n" ++ renderContents sel

/-- `pySetAux` specialized to strings: Python equality on strings is string
equality, so insertion into the set keeps the first occurrence of each
string. -/
def pySetAuxStr (seen : List String) : List String → List String
  | [] => []
  | a :: rest =>
      if seen.any (fun s => a == s) then pySetAuxStr seen rest
      else a :: pySetAuxStr (a :: seen) rest

theorem pyEq_str_str (a s : String) : pyEq (JValue.str a) (JValue.str s) = (a == s) := rfl

theorem any_map_str_eq (a : String) (ss : List String) :
    (ss.map JValue.str).any (pyEq (JValue.str a)) = ss.any (fun s => a == s) := by
  induction ss with
  | nil => rfl
  | cons b bs ihb => simp only [List.map_cons, List.any_cons, ihb]; rfl

theorem any_beq_iff_mem (a : String) (ss : List String) :
    (ss.any (fun s => a == s) = true) ↔ a ∈ ss := by
  constructor
  · intro h
    obtain ⟨x, hx, hb⟩ := List.any_eq_true.mp h
    exact (beq_iff_eq.mp hb) ▸ hx
  · intro h
    exact List.any_eq_true.mpr ⟨a, h, beq_self_eq_true a⟩

theorem pySetAux_map_str (xs : List String) :
    ∀ ss : List String,
      pySetAux (ss.map JValue.str) (xs.map JValue.str) = (pySetAuxStr ss xs).map JValue.str := by
  induction xs with
  | nil => intro ss; rfl
  | cons a rest ih =>
    intro ss
    simp only [List.map_cons, pySetAux, pySetAuxStr, any_map_str_eq]
    by_cases h : ss.any (fun s => a == s) = true
    · rw [if_pos h, if_pos h]
      exact ih ss
    · rw [if_neg h, if_neg h, List.map_cons]
      have h2 := ih (a :: ss)
      rw [List.map_cons] at h2
      rw [h2]

theorem mem_pySetAuxStr (xs : List String) :
    ∀ (seen : List String) (x : String),
      x ∈ pySetAuxStr seen xs ↔ x ∈ xs ∧ x ∉ seen := by
  induction xs with
  | nil => intro seen x; simp [pySetAuxStr]
  | cons a rest ih =>
    intro seen x
    by_cases h : seen.any (fun s => a == s) = true
    · have ha : a ∈ seen := (any_beq_iff_mem a seen).mp h
      simp only [pySetAuxStr]
      rw [if_pos h, ih seen x]
      simp only [List.mem_cons]
      constructor
      · rintro ⟨hx, hns⟩; exact ⟨Or.inr hx, hns⟩
      · rintro ⟨hx | hx, hns⟩
        · exact absurd (hx ▸ ha) hns
        · exact ⟨hx, hns⟩
    · have ha : a ∉ seen := fun hc => h ((any_beq_iff_mem a seen).mpr hc)
      simp only [pySetAuxStr]
      rw [if_neg h]
      simp only [List.mem_cons, ih (a :: seen) x]
      by_cases hxa : x = a
      · subst hxa; simp [ha]
      · simp [hxa]

theorem nodup_pySetAuxStr (xs : List String) :
    ∀ seen : List String, (pySetAuxStr seen xs).Nodup := by
  induction xs with
  | nil => intro seen; simp [pySetAuxStr]
  | cons a rest ih =>
    intro seen
    simp only [pySetAuxStr]
    by_cases h : seen.any (fun s => a == s) = true
    · rw [if_pos h]
      exact ih seen
    · rw [if_neg h]
      refine List.nodup_cons.mpr ⟨fun hc => ?_, ih (a :: seen)⟩
      exact ((mem_pySetAuxStr rest (a :: seen) a).mp hc).2 (List.mem_cons_self a seen)

theorem allStrings_map_str (l : List String) : allStrings (l.map JValue.str) = some l := by
  induction l with
  | nil => rfl
  | cons a rest ih => simp [allStrings, ih]

theorem pyHashable_map_str (xs : List String) :
    (xs.map JValue.str).all pyHashable = true := by
  induction xs with
  | nil => rfl
  | cons a rest ih => simp only [List.map_cons, List.all_cons, ih]; rfl

theorem pySetList_arr_str (xs : List String) :
    pySetList (JValue.arr (xs.map JValue.str)) =
      some ((pySetAuxStr [] xs).map JValue.str) := by
  have h := pySetAux_map_str xs []
  rw [List.map_nil] at h
  simp only [pySetList]
  rw [if_pos (pyHashable_map_str xs), h]

/-- When the `technologies` field of the reply object is an array built from
the string list `xs` and extraction succeeds, the response's technologies are
exactly the first-occurrence deduplication of `xs`. -/
theorem extract_technologies (fs : List (String × JValue)) (xs : List String)
    (r : SummarizeResponse)
    (htech : lookupField fs "technologies" = some (.arr (xs.map JValue.str)))
    (hr : extract (.obj fs) = some r) :
    r.technologies = pySetAuxStr [] xs := by
  simp only [extract, htech, Option.getD_some, pySetList_arr_str,
    allStrings_map_str] at hr
  split at hr
  · rename_i s t techs hsum hstr htechs
    cases hr
    exact (Option.some.inj htechs).symm
  · exact Option.noConfusion hr

theorem pyIn_trans {a b c : String} (h1 : pyIn a b) (h2 : pyIn b c) : pyIn a c :=
  List.IsInfix.trans h1 h2

theorem pyIn_append_left {sub s : String} (t : String) (h : pyIn sub s) :
    pyIn sub (s ++ t) := by
  obtain ⟨u, v, huv⟩ := h
  refine ⟨u, v ++ t.data, ?_⟩
  rw [String.data_append, ← huv]
  simp [List.append_assoc]

theorem pyIn_append_right {sub s : String} (t : String) (h : pyIn sub s) :
    pyIn sub (t ++ s) := by
  obtain ⟨u, v, huv⟩ := h
  refine ⟨t.data ++ u, v, ?_⟩
  rw [String.data_append, ← huv]
  simp [List.append_assoc]

theorem pyIn_refl (s : String) : pyIn s s := ⟨[], [], by simp⟩

theorem pyIn_joinLines {s : String} {l : List String} (h : s ∈ l) :
    pyIn s (joinLines l) := by
  induction l with
  | nil => cases h
  | cons a rest ih =>
    rcases List.mem_cons.mp h with rfl | h2
    · show pyIn s (s ++ "\n" ++ joinLines rest)
      exact pyIn_append_left _ (pyIn_append_left _ (pyIn_refl s))
    · show pyIn s (a ++ "\n" ++ joinLines rest)
      exact pyIn_append_right _ (ih h2)

/-- Lowering a string preserves substring containment. -/
theorem pyIn_lowerStr {sub s : String} (h : pyIn sub s) :
    pyIn (lowerStr sub) (lowerStr s) :=
  List.IsInfix.map Char.toLower h

set_option maxRecDepth 4000 in
/-- A string whose lowering contains "authenticate" cannot occur inside the
fixed credential-advice body, whose lowering does not contain it. -/
theorem auth_text_no_leak {m : String} (h : pyIn "authenticate" (lowerStr m)) :
    ¬ pyIn m llmAuthMsg := by
  intro hm
  have h3 : pyIn "authenticate" (lowerStr llmAuthMsg) :=
    pyIn_trans h (pyIn_lowerStr hm)
  revert h3
  decide

theorem summarizeAux_transport (calls : Nat → CallOutcome) (attempt fuel : Nat)
    (e : String) (h : calls attempt = .transportError e) :
    summarizeAux calls attempt (fuel + 1) =
      (.error ("LLM API call failed: " ++ e), attempt) := by
  simp [summarizeAux, h]

theorem summarizeAux_ok (calls : Nat → CallOutcome) (attempt fuel : Nat)
    (c : ReplyContent) (r : SummarizeResponse) (hc : calls attempt = .reply c)
    (hp : parseReply c = .ok r) :
    summarizeAux calls attempt (fuel + 1) = (.ok r, attempt) := by
  simp [summarizeAux, hc, hp]

theorem summarizeAux_retry (calls : Nat → CallOutcome) (attempt fuel : Nat)
    (hne : attempt ≠ maxJsonRetries)
    (hf : callParseFails (calls attempt) = true) :
    summarizeAux calls attempt (fuel + 1) = summarizeAux calls (attempt + 1) fuel := by
  cases hc : calls attempt with
  | transportError m => rw [hc] at hf; simp [callParseFails] at hf
  | reply c =>
    rw [hc] at hf
    cases hp : parseReply c with
    | ok r => simp [callParseFails, hp] at hf
    | error m => simp [summarizeAux, hc, hp, hne]

theorem summarizeAux_final_fail (calls : Nat → CallOutcome) (fuel : Nat)
    (c : ReplyContent) (e : String) (hc : calls maxJsonRetries = .reply c)
    (hp : parseReply c = .error e) :
    summarizeAux calls maxJsonRetries (fuel + 1) =
      (.error ("LLM response parse/validation failed after 3 attempts: " ++ e),
       maxJsonRetries) := by
  simp [summarizeAux, hc, hp]

/-- The message of a raised `LLMError`, or `""` for a returned value. -/
def errMsgOf : Except String SummarizeResponse → String
  | .error e => e
  | .ok _ => ""

theorem parse_fail_of_emptyOrNotJson {c : CallOutcome}
    (h : isEmptyOrNotJson c = true) :
    ∃ rc e, c = .reply rc ∧ parseReply rc = .error e := by
  cases c with
  | transportError m => simp [isEmptyOrNotJson] at h
  | reply rc =>
    cases rc with
    | empty => exact ⟨_, _, rfl, rfl⟩
    | notJson raw => exact ⟨_, _, rfl, rfl⟩
    | json v => simp [isEmptyOrNotJson] at h

theorem callParseFails_of_reply_error {c : CallOutcome} {rc : ReplyContent}
    {e : String} (hc : c = .reply rc) (hp : parseReply rc = .error e) :
    callParseFails c = true := by
  subst hc
  simp [callParseFails, hp]

/-- C2: if the chat-completion call raises at the transport/API level on the
attempt it is reached at, `summarize` raises an `LLMError` wrapping the
underlying message at once, with no further model call, on whichever of the
three attempts the failure occurs. -/
theorem summarize_transport_failure_immediate (calls : Nat → CallOutcome)
    (k : Nat) (e : String) (hk1 : 1 ≤ k) (hk3 : k ≤ maxJsonRetries)
    (hbefore : ∀ i, 1 ≤ i → i < k → callParseFails (calls i) = true)
    (hk : calls k = .transportError e) :
    summarizeModel calls = (.error ("LLM API call failed: " ++ e), k) := by
  have hk3' : k ≤ 3 := hk3
  interval_cases k
  · exact summarizeAux_transport calls 1 2 e hk
  · have h1 := hbefore 1 (by omega) (by omega)
    calc summarizeModel calls
        = summarizeAux calls 2 2 := summarizeAux_retry calls 1 2 (by decide) h1
      _ = (.error ("LLM API call failed: " ++ e), 2) :=
          summarizeAux_transport calls 2 1 e hk
  · have h1 := hbefore 1 (by omega) (by omega)
    have h2 := hbefore 2 (by omega) (by omega)
    calc summarizeModel calls
        = summarizeAux calls 2 2 := summarizeAux_retry calls 1 2 (by decide) h1
      _ = summarizeAux calls 3 1 := summarizeAux_retry calls 2 1 (by decide) h2
      _ = (.error ("LLM API call failed: " ++ e), 3) :=
          summarizeAux_transport calls 3 0 e hk

/-- Call stream for the C2 witness: a parse failure on attempt 1, a transport
failure on attempt 2. -/
def c2calls : Nat → CallOutcome := fun i =>
  if i = 2 then .transportError "boom" else .reply (.notJson "x")

/-- C2 witness: with a parse failure on attempt 1 and a transport failure on
attempt 2, `summarize` raises the wrapped transport error after exactly two
calls. -/
theorem summarize_transport_failure_immediate_witness :
    summarizeModel c2calls = (.error ("LLM API call failed: " ++ "boom"), 2) :=
  summarize_transport_failure_immediate c2calls 2 "boom" (by decide) (by decide)
    (fun i h1 h2 => by
      have hi : i = 1 := by omega
      subst hi
      rfl)
    rfl

/-- C3: when every call succeeds but every reply body is empty or fails JSON
decoding, `summarize` performs exactly three calls and then raises the
final-attempt parse `LLMError`. -/
theorem summarize_parse_failures_three_attempts (calls : Nat → CallOutcome)
    (h : ∀ i, 1 ≤ i → i ≤ maxJsonRetries → isEmptyOrNotJson (calls i) = true) :
    (summarizeModel calls).1.isOk = false ∧
      pyIn "LLM response parse/validation failed after 3 attempts: "
        (errMsgOf (summarizeModel calls).1) ∧
      (summarizeModel calls).2 = 3 := by
  obtain ⟨c1, e1, hc1, hp1⟩ := parse_fail_of_emptyOrNotJson (h 1 (by omega) (by decide))
  obtain ⟨c2, e2, hc2, hp2⟩ := parse_fail_of_emptyOrNotJson (h 2 (by omega) (by decide))
  obtain ⟨c3, e3, hc3, hp3⟩ := parse_fail_of_emptyOrNotJson (h 3 (by omega) (by decide))
  have hrun : summarizeModel calls =
      (.error ("LLM response parse/validation failed after 3 attempts: " ++ e3), 3) := by
    calc summarizeModel calls
        = summarizeAux calls 2 2 :=
          summarizeAux_retry calls 1 2 (by decide) (callParseFails_of_reply_error hc1 hp1)
      _ = summarizeAux calls 3 1 :=
          summarizeAux_retry calls 2 1 (by decide) (callParseFails_of_reply_error hc2 hp2)
      _ = (.error ("LLM response parse/validation failed after 3 attempts: " ++ e3), 3) :=
          summarizeAux_final_fail calls 0 c3 e3 hc3 hp3
  rw [hrun]
  refine ⟨rfl, ?_, rfl⟩
  exact pyIn_append_left _ (pyIn_refl _)

/-- Call stream for the C3 witness: every call returns an empty body. -/
def c3calls : Nat → CallOutcome := fun _ => .reply .empty

/-- C3 witness: three empty replies produce a final-attempt parse failure
after exactly three calls. -/
theorem summarize_parse_failures_three_attempts_witness :
    (summarizeModel c3calls).1.isOk = false ∧
      pyIn "LLM response parse/validation failed after 3 attempts: "
        (errMsgOf (summarizeModel c3calls).1) ∧
      (summarizeModel c3calls).2 = 3 :=
  summarize_parse_failures_three_attempts c3calls (fun _i _h1 _h3 => rfl)

/-- Call stream for the C4 counterexample: non-JSON text on attempts 1 and 2,
a JSON object whose technologies field is null on attempt 3. -/
def c4calls : Nat → CallOutcome := fun i =>
  if i ≤ 2 then .reply (.notJson "oops")
  else .reply (.json (.obj [("technologies", JValue.null)]))

/-- C4 counterexample: the attempt-3 reply parses as a JSON object, yet
`summarize` raises — `set(None)` raises `TypeError`, which the loop treats as
a parse failure, and attempt 3 is the last. -/
theorem summarize_json_object_still_raises :
    c4calls 3 = .reply (.json (.obj [("technologies", JValue.null)])) ∧
      (summarizeModel c4calls).1.isOk = false := ⟨rfl, rfl⟩

/-- C4 amended: if attempts 1 and 2 return non-JSON text and attempt 3 returns
a reply that parses as a JSON object from which the three fields extract and
validate successfully, `summarize` returns the attempt-3 result after exactly
three calls and does not raise. -/
theorem summarize_retry_then_success (calls : Nat → CallOutcome) (v : JValue)
    (r : SummarizeResponse)
    (h1 : ∃ raw, calls 1 = .reply (.notJson raw))
    (h2 : ∃ raw, calls 2 = .reply (.notJson raw))
    (h3 : calls 3 = .reply (.json v))
    (hv : extract v = some r) :
    summarizeModel calls = (.ok r, 3) := by
  obtain ⟨raw1, hc1⟩ := h1
  obtain ⟨raw2, hc2⟩ := h2
  have hcp1 : callParseFails (calls 1) = true := by rw [hc1]; rfl
  have hcp2 : callParseFails (calls 2) = true := by rw [hc2]; rfl
  have hp3 : parseReply (.json v) = .ok r := by simp [parseReply, hv]
  calc summarizeModel calls
      = summarizeAux calls 2 2 := summarizeAux_retry calls 1 2 (by decide) hcp1
    _ = summarizeAux calls 3 1 := summarizeAux_retry calls 2 1 (by decide) hcp2
    _ = (.ok r, 3) := summarizeAux_ok calls 3 0 _ r h3 hp3

/-- Call stream for the C4 witness: non-JSON text twice, then a fully
populated JSON object. -/
def c4okCalls : Nat → CallOutcome := fun i =>
  if i ≤ 2 then .reply (.notJson "oops")
  else .reply (.json (.obj [("summary", .str "S"),
    ("technologies", .arr [.str "Python"]), ("structure", .str "T")]))

/-- C4 witness: the attempt-3 object is returned after exactly three calls. -/
theorem summarize_retry_then_success_witness :
    summarizeModel c4okCalls = (.ok ⟨"S", ["Python"], "T"⟩, 3) :=
  summarize_retry_then_success c4okCalls
    (.obj [("summary", .str "S"), ("technologies", .arr [.str "Python"]),
      ("structure", .str "T")])
    ⟨"S", ["Python"], "T"⟩ ⟨"oops", rfl⟩ ⟨"oops", rfl⟩ rfl rfl

/-- Call stream for the C5 counterexample: every reply is the valid JSON text
for an empty array, which is not an object. -/
def c5calls : Nat → CallOutcome := fun _ => .reply (.json (.arr []))

/-- C5 counterexample: a reply that is valid JSON but not an object is not
returned immediately with defaults — `data.get` raises `AttributeError`, the
loop retries, and after three attempts `summarize` raises. -/
theorem summarize_valid_json_not_immediate :
    (summarizeModel c5calls).1.isOk = false ∧ (summarizeModel c5calls).2 = 3 :=
  ⟨rfl, rfl⟩

/-- String-valued JSON values. -/
def isStr : JValue → Bool
  | .str _ => true
  | _ => false

/-- A string-typed-or-missing field of a reply object. -/
def wellTypedField (fs : List (String × JValue)) (k : String) : Bool :=
  match lookupField fs k with
  | none => true
  | some (.str _) => true
  | some _ => false

/-- A missing technologies field, or one holding an array of strings. -/
def wellTypedTech (fs : List (String × JValue)) : Bool :=
  match lookupField fs "technologies" with
  | none => true
  | some (.arr xs) => xs.all isStr
  | some _ => false

/-- The response extracted from a reply object, defaulting to the empty
response when extraction fails (used only where extraction is proved to
succeed). -/
def extractD (fs : List (String × JValue)) : SummarizeResponse :=
  (extract (.obj fs)).getD ⟨"", [], ""⟩

theorem exists_map_str_of_all_isStr (xs : List JValue) (h : xs.all isStr = true) :
    ∃ ys : List String, xs = ys.map JValue.str := by
  induction xs with
  | nil => exact ⟨[], rfl⟩
  | cons a rest ih =>
    rw [List.all_cons, Bool.and_eq_true] at h
    obtain ⟨ys, hys⟩ := ih h.2
    cases a with
    | str s => exact ⟨s :: ys, by rw [hys, List.map_cons]⟩
    | num n => simp [isStr] at h
    | bool b => simp [isStr] at h
    | null => simp [isStr] at h
    | arr l => simp [isStr] at h
    | obj o => simp [isStr] at h

/-- On a well-typed reply object, extraction succeeds, and a missing field
comes out as its default. -/
theorem extract_wellTyped (fs : List (String × JValue))
    (hs : wellTypedField fs "summary" = true)
    (ht : wellTypedField fs "structure" = true)
    (htech : wellTypedTech fs = true) :
    extract (.obj fs) = some (extractD fs) ∧
      (lookupField fs "summary" = none → (extractD fs).summary = "") ∧
      (lookupField fs "technologies" = none → (extractD fs).technologies = []) ∧
      (lookupField fs "structure" = none → (extractD fs).structureText = "") := by
  have htechArr : ∃ ys : List String,
      (lookupField fs "technologies").getD (.arr []) = .arr (ys.map JValue.str) := by
    unfold wellTypedTech at htech
    cases hT : lookupField fs "technologies" with
    | none => exact ⟨[], rfl⟩
    | some v =>
      rw [hT] at htech
      cases v with
      | arr xs =>
        obtain ⟨ys, hys⟩ := exists_map_str_of_all_isStr xs htech
        exact ⟨ys, by rw [Option.getD_some, hys]⟩
      | str s => exact absurd htech (by simp)
      | num n => exact absurd htech (by simp)
      | bool b => exact absurd htech (by simp)
      | null => exact absurd htech (by simp)
      | obj o => exact absurd htech (by simp)
  have hsumStr : ∃ s : String,
      (lookupField fs "summary").getD (.str "") = .str s := by
    unfold wellTypedField at hs
    cases hS : lookupField fs "summary" with
    | none => exact ⟨"", rfl⟩
    | some v =>
      rw [hS] at hs
      cases v with
      | str s => exact ⟨s, rfl⟩
      | num n => exact absurd hs (by simp)
      | bool b => exact absurd hs (by simp)
      | null => exact absurd hs (by simp)
      | arr l => exact absurd hs (by simp)
      | obj o => exact absurd hs (by simp)
  have hstrStr : ∃ t : String,
      (lookupField fs "structure").getD (.str "") = .str t := by
    unfold wellTypedField at ht
    cases hS : lookupField fs "structure" with
    | none => exact ⟨"", rfl⟩
    | some v =>
      rw [hS] at ht
      cases v with
      | str t => exact ⟨t, rfl⟩
      | num n => exact absurd ht (by simp)
      | bool b => exact absurd ht (by simp)
      | null => exact absurd ht (by simp)
      | arr l => exact absurd ht (by simp)
      | obj o => exact absurd ht (by simp)
  obtain ⟨ys, hys⟩ := htechArr
  obtain ⟨s, hsv⟩ := hsumStr
  obtain ⟨t, htv⟩ := hstrStr
  have hex : extract (.obj fs) = some ⟨s, pySetAuxStr [] ys, t⟩ := by
    simp only [extract, hys, pySetList_arr_str, allStrings_map_str, hsv, htv]
  have hexD : extractD fs = ⟨s, pySetAuxStr [] ys, t⟩ := by
    rw [extractD, hex, Option.getD_some]
  refine ⟨by rw [hex, hexD], ?_, ?_, ?_⟩
  · intro hnone
    rw [hexD]
    have : (lookupField fs "summary").getD (JValue.str "") = .str "" := by
      rw [hnone]; rfl
    rw [this] at hsv
    cases hsv
    rfl
  · intro hnone
    rw [hexD]
    have : (lookupField fs "technologies").getD (JValue.arr []) = .arr [] := by
      rw [hnone]; rfl
    rw [this] at hys
    have hnil : ys.map JValue.str = [] := (JValue.arr.inj hys).symm
    have : ys = [] := List.map_eq_nil_iff.mp hnil
    rw [this]
    rfl
  · intro hnone
    rw [hexD]
    have : (lookupField fs "structure").getD (JValue.str "") = .str "" := by
      rw [hnone]; rfl
    rw [this] at htv
    cases htv
    rfl

/-- C5 amended: a reply that parses as a JSON object whose present fields are
well typed (summary and structure strings, technologies an array of strings)
is returned immediately on the attempt it arrives at — no retry — with
empty-string/empty-list defaults for missing fields. -/
theorem summarize_object_reply_immediate (calls : Nat → CallOutcome) (k : Nat)
    (fs : List (String × JValue)) (hk1 : 1 ≤ k) (hk3 : k ≤ maxJsonRetries)
    (hbefore : ∀ i, 1 ≤ i → i < k → callParseFails (calls i) = true)
    (hk : calls k = .reply (.json (.obj fs)))
    (hs : wellTypedField fs "summary" = true)
    (ht : wellTypedField fs "structure" = true)
    (htech : wellTypedTech fs = true) :
    summarizeModel calls = (.ok (extractD fs), k) ∧
      (lookupField fs "summary" = none → (extractD fs).summary = "") ∧
      (lookupField fs "technologies" = none → (extractD fs).technologies = []) ∧
      (lookupField fs "structure" = none → (extractD fs).structureText = "") := by
  obtain ⟨hex, d1, d2, d3⟩ := extract_wellTyped fs hs ht htech
  refine ⟨?_, d1, d2, d3⟩
  have hp : parseReply (.json (.obj fs)) = .ok (extractD fs) := by
    simp [parseReply, hex]
  have hk3' : k ≤ 3 := hk3
  interval_cases k
  · exact summarizeAux_ok calls 1 2 _ _ hk hp
  · have h1 := hbefore 1 (by omega) (by omega)
    calc summarizeModel calls
        = summarizeAux calls 2 2 := summarizeAux_retry calls 1 2 (by decide) h1
      _ = (.ok (extractD fs), 2) := summarizeAux_ok calls 2 1 _ _ hk hp
  · have h1 := hbefore 1 (by omega) (by omega)
    have h2 := hbefore 2 (by omega) (by omega)
    calc summarizeModel calls
        = summarizeAux calls 2 2 := summarizeAux_retry calls 1 2 (by decide) h1
      _ = summarizeAux calls 3 1 := summarizeAux_retry calls 2 1 (by decide) h2
      _ = (.ok (extractD fs), 3) := summarizeAux_ok calls 3 0 _ _ hk hp

/-- Reply object for the C5 witness: only a summary field is present. -/
def c5fields : List (String × JValue) := [("summary", .str "only summary")]

/-- Call stream for the C5 witness: the first call already returns the
object. -/
def c5okCalls : Nat → CallOutcome := fun _ => .reply (.json (.obj c5fields))

/-- C5 witness: an object carrying only a summary is returned on attempt 1
with the other two fields defaulted. -/
theorem summarize_object_reply_immediate_witness :
    (summarizeModel c5okCalls = (.ok (extractD c5fields), 1) ∧
      (lookupField c5fields "summary" = none → (extractD c5fields).summary = "") ∧
      (lookupField c5fields "technologies" = none →
        (extractD c5fields).technologies = []) ∧
      (lookupField c5fields "structure" = none →
        (extractD c5fields).structureText = "")) ∧
    lookupField c5fields "technologies" = none ∧
    lookupField c5fields "structure" = none ∧
    extractD c5fields = ⟨"only summary", [], ""⟩ :=
  ⟨summarize_object_reply_immediate c5okCalls 1 c5fields (by decide) (by decide)
      (fun _i _h1 h2 => absurd h2 (by omega)) rfl rfl rfl rfl,
    rfl, rfl, rfl⟩

/-- Call stream for the C1 counterexample: a reply whose technologies field
has eleven case-distinct string entries. -/
def c1calls : Nat → CallOutcome := fun _ =>
  .reply (.json (.obj [("technologies",
    JValue.arr [.str "Python", .str "python", .str "C", .str "Rust", .str "Go",
      .str "Java", .str "Ruby", .str "Perl", .str "PHP", .str "Swift",
      .str "Kotlin"])]))

/-- The response the C1 counterexample stream produces. -/
def c1result : SummarizeResponse :=
  ⟨"", ["Python", "python", "C", "Rust", "Go", "Java", "Ruby", "Perl", "PHP",
    "Swift", "Kotlin"], ""⟩

/-- C1 counterexample: the returned technologies keep both "Python" and
"python" and have eleven entries — deduplication is not case-insensitive and
no length cap of 10 is applied. -/
theorem summarize_technologies_not_capped :
    (summarizeModel c1calls).1 = .ok c1result ∧
      c1result.technologies.length = 11 ∧
      "Python" ∈ c1result.technologies ∧ "python" ∈ c1result.technologies := by
  refine ⟨rfl, rfl, ?_, ?_⟩ <;> decide

/-- C1 amended: for a reply object whose technologies field is a list of
strings, whenever `summarize` returns, the returned technologies are the
input's distinct strings under exact (case-sensitive) equality — no duplicate
entries, same membership — with no length cap and no guaranteed order. -/
theorem summarize_technologies_exact_dedup (fs : List (String × JValue))
    (xs : List String) (r : SummarizeResponse)
    (htech : lookupField fs "technologies" = some (.arr (xs.map JValue.str)))
    (hok : (summarizeModel (fun _ => .reply (.json (.obj fs)))).1 = .ok r) :
    r.technologies.Nodup ∧ r.technologies.toFinset = xs.toFinset := by
  cases hex : extract (.obj fs) with
  | some r2 =>
    have hp : parseReply (.json (.obj fs)) = .ok r2 := by simp [parseReply, hex]
    have hrun : summarizeModel (fun _ => .reply (.json (.obj fs))) = (.ok r2, 1) :=
      summarizeAux_ok (fun _ => .reply (.json (.obj fs))) 1 2 _ r2 rfl hp
    rw [hrun] at hok
    have hr : r2 = r := Except.ok.inj hok
    subst hr
    have hT := extract_technologies fs xs r2 htech hex
    rw [hT]
    refine ⟨nodup_pySetAuxStr xs [], ?_⟩
    refine Finset.ext fun x => ?_
    simp [List.mem_toFinset, mem_pySetAuxStr]
  | none =>
    have hp : parseReply (.json (.obj fs)) =
        .error "response field extraction/validation failed" := by
      simp [parseReply, hex]
    have hcp : callParseFails (CallOutcome.reply (.json (.obj fs))) = true := by
      simp [callParseFails, hp]
    have hrun : summarizeModel (fun _ => .reply (.json (.obj fs))) =
        (.error ("LLM response parse/validation failed after 3 attempts: " ++
          "response field extraction/validation failed"), 3) := by
      calc summarizeModel (fun _ => CallOutcome.reply (.json (.obj fs)))
          = summarizeAux (fun _ => .reply (.json (.obj fs))) 2 2 :=
            summarizeAux_retry _ 1 2 (by decide) hcp
        _ = summarizeAux (fun _ => .reply (.json (.obj fs))) 3 1 :=
            summarizeAux_retry _ 2 1 (by decide) hcp
        _ = _ := summarizeAux_final_fail _ 0 _ _ rfl hp
    rw [hrun] at hok
    exact Except.noConfusion hok

/-- Reply object for the C1 witness: three technologies entries with one exact
duplicate. -/
def c1wFields : List (String × JValue) :=
  [("technologies", .arr [.str "A", .str "a", .str "A"])]

/-- C1 witness: `["A", "a", "A"]` comes back with the exact duplicate removed,
the case variant kept, and membership preserved. -/
theorem summarize_technologies_exact_dedup_witness :
    (⟨"", ["A", "a"], ""⟩ : SummarizeResponse).technologies.Nodup ∧
      (⟨"", ["A", "a"], ""⟩ : SummarizeResponse).technologies.toFinset =
        ["A", "a", "A"].toFinset :=
  summarize_technologies_exact_dedup c1wFields ["A", "a", "A"]
    ⟨"", ["A", "a"], ""⟩ rfl rfl

/-- The endpoint's reply once the fetch phase completed with a nonempty file
list and an assembled context, as a function of the LLM phase outcome. -/
theorem endpointRun_llm_phase (env : Env) (files : List RepoFile)
    (hkey : env.nebiusApiKey ≠ "")
    (hbr : ∃ b, env.branchOutcome = .ok b)
    (htree : env.treeOutcome = .ok files) (hne : files ≠ [])
    (hctx : ∃ c, env.contextOutcome = .ok c) :
    endpointRun env =
      (match env.llmOutcome with
        | .ok r =>
            { status := 200, body := .ok r,
              ops := [.getDefaultBranch, .getRepoTree, .collectContext, .llmSummarize] }
        | .llmError m =>
            if isLlmAuthError m then
              { status := 500, body := .err llmAuthMsg,
                ops := [.getDefaultBranch, .getRepoTree, .collectContext, .llmSummarize] }
            else
              { status := 502, body := .err llmGenericMsg,
                ops := [.getDefaultBranch, .getRepoTree, .collectContext, .llmSummarize] }
        | .unexpected m =>
            { status := 500,
              body := .err ("Internal error during summarization: " ++ m),
              ops := [.getDefaultBranch, .getRepoTree, .collectContext, .llmSummarize] }) := by
  obtain ⟨b, hb⟩ := hbr
  obtain ⟨c, hc⟩ := hctx
  cases files with
  | nil => exact absurd rfl hne
  | cons a l =>
    rw [endpointRun, if_neg hkey, hb, htree, hc]
    rfl

/-- C6 counterexample environment: the tree listing raises an exception
outside the typed taxonomy. -/
def c6env : Env :=
  { nebiusApiKey := "k", branchOutcome := .ok "main",
    treeOutcome := .unexpected "boom",
    contextOutcome := .ok "ctx", llmOutcome := .ok ⟨"s", [], "t"⟩ }

/-- C6 counterexample: an unexpected internal exception raised while listing
the repository tree yields HTTP 502, not 500. -/
theorem endpoint_fetch_unexpected_is_502 :
    (endpointRun c6env).status = 502 ∧ (endpointRun c6env).status ≠ 500 :=
  ⟨rfl, by decide⟩

/-- C6 amended: an unexpected internal exception during the LLM summarization
phase yields HTTP 500 with the internal-error body, while an unexpected
exception during the repository fetch phase yields HTTP 502 instead. -/
theorem endpoint_unexpected_exception_mapping (env env2 : Env) (m m2 : String)
    (files : List RepoFile)
    (hkey : env.nebiusApiKey ≠ "")
    (hbr : ∃ b, env.branchOutcome = .ok b)
    (htree : env.treeOutcome = .ok files) (hne : files ≠ [])
    (hctx : ∃ c, env.contextOutcome = .ok c)
    (hllm : env.llmOutcome = .unexpected m)
    (hkey2 : env2.nebiusApiKey ≠ "")
    (hbr2 : ∃ b, env2.branchOutcome = .ok b)
    (htree2 : env2.treeOutcome = .unexpected m2) :
    (endpointRun env).status = 500 ∧
      (endpointRun env).body = .err ("Internal error during summarization: " ++ m) ∧
      (endpointRun env2).status = 502 := by
  have h1 := endpointRun_llm_phase env files hkey hbr htree hne hctx
  rw [hllm] at h1
  obtain ⟨b2, hb2⟩ := hbr2
  have h2 : endpointRun env2 =
      { status := 502, body := .err ("Failed to fetch repository data: " ++ m2),
        ops := [.getDefaultBranch, .getRepoTree] } := by
    rw [endpointRun, if_neg hkey2, hb2, htree2]
  rw [h1, h2]
  exact ⟨rfl, rfl, rfl⟩

/-- C6 witness environments: an LLM-phase unexpected exception and a
fetch-phase unexpected exception. -/
def c6wEnv : Env :=
  { nebiusApiKey := "k", branchOutcome := .ok "main",
    treeOutcome := .ok [⟨"README.md", 10⟩],
    contextOutcome := .ok "ctx", llmOutcome := .unexpected "oops" }

/-- C6 witness: the two unexpected-exception statuses at concrete
environments. -/
theorem endpoint_unexpected_exception_mapping_witness :
    (endpointRun c6wEnv).status = 500 ∧
      (endpointRun c6wEnv).body =
        .err ("Internal error during summarization: " ++ "oops") ∧
      (endpointRun c6env).status = 502 :=
  endpoint_unexpected_exception_mapping c6wEnv c6env "oops" "boom"
    [⟨"README.md", 10⟩] (by decide) ⟨"main", rfl⟩ rfl (by decide) ⟨"ctx", rfl⟩
    rfl (by decide) ⟨"main", rfl⟩ rfl

/-- C7: an empty repository file list yields HTTP 400 with the exact
empty-repository message, and the LLM call is never performed. -/
theorem endpoint_empty_repo_400 (env : Env)
    (hkey : env.nebiusApiKey ≠ "")
    (hbr : ∃ b, env.branchOutcome = .ok b)
    (htree : env.treeOutcome = .ok []) :
    endpointRun env =
      { status := 400, body := .err "Repository appears to be empty.",
        ops := [.getDefaultBranch, .getRepoTree] } ∧
      Op.llmSummarize ∉ (endpointRun env).ops := by
  obtain ⟨b, hb⟩ := hbr
  have h : endpointRun env =
      { status := 400, body := .err "Repository appears to be empty.",
        ops := [.getDefaultBranch, .getRepoTree] } := by
    rw [endpointRun, if_neg hkey, hb, htree]
    rfl
  rw [h]
  exact ⟨rfl, by decide⟩

/-- C7 witness environment: an empty tree. -/
def c7env : Env :=
  { nebiusApiKey := "k", branchOutcome := .ok "main", treeOutcome := .ok [],
    contextOutcome := .ok "ctx", llmOutcome := .ok ⟨"s", [], "t"⟩ }

/-- C7 witness: the empty-repository reply at a concrete environment. -/
theorem endpoint_empty_repo_400_witness :
    endpointRun c7env =
      { status := 400, body := .err "Repository appears to be empty.",
        ops := [.getDefaultBranch, .getRepoTree] } ∧
      Op.llmSummarize ∉ (endpointRun c7env).ops :=
  endpoint_empty_repo_400 c7env (by decide) ⟨"main", rfl⟩ rfl

/-- C8: an `LLMError` whose lowered message contains "authenticate" yields
HTTP 500 with the fixed credential-advice body, and the upstream error text
cannot occur inside that body. -/
theorem endpoint_auth_error_500 (env : Env) (m : String) (files : List RepoFile)
    (hkey : env.nebiusApiKey ≠ "")
    (hbr : ∃ b, env.branchOutcome = .ok b)
    (htree : env.treeOutcome = .ok files) (hne : files ≠ [])
    (hctx : ∃ c, env.contextOutcome = .ok c)
    (hllm : env.llmOutcome = .llmError m)
    (hauth : pyIn "authenticate" (lowerStr m)) :
    (endpointRun env).status = 500 ∧ (endpointRun env).body = .err llmAuthMsg ∧
      ¬ pyIn m llmAuthMsg := by
  have h1 := endpointRun_llm_phase env files hkey hbr htree hne hctx
  rw [hllm] at h1
  have h2 : endpointRun env =
      { status := 500, body := .err llmAuthMsg,
        ops := [.getDefaultBranch, .getRepoTree, .collectContext, .llmSummarize] } := by
    rw [h1]
    exact if_pos (Or.inl hauth)
  rw [h2]
  exact ⟨rfl, rfl, auth_text_no_leak hauth⟩

/-- C8 witness environment: the LLM raises an error mentioning
authentication. -/
def c8env : Env :=
  { nebiusApiKey := "k", branchOutcome := .ok "main",
    treeOutcome := .ok [⟨"README.md", 10⟩], contextOutcome := .ok "ctx",
    llmOutcome := .llmError
      "LLM API call failed: Error code: 401 - Could not authenticate" }

set_option maxRecDepth 4000 in
/-- C8 witness: the credential-advice reply at a concrete environment, with
the upstream text absent from the body. -/
theorem endpoint_auth_error_500_witness :
    (endpointRun c8env).status = 500 ∧
      (endpointRun c8env).body = .err llmAuthMsg ∧
      ¬ pyIn "LLM API call failed: Error code: 401 - Could not authenticate"
        llmAuthMsg :=
  endpoint_auth_error_500 c8env
    "LLM API call failed: Error code: 401 - Could not authenticate"
    [⟨"README.md", 10⟩] (by decide) ⟨"main", rfl⟩ rfl (by decide) ⟨"ctx", rfl⟩
    rfl (by decide)

/-- C10: with `NEBIUS_API_KEY` unset or empty, the endpoint replies 500 with
the key-missing message and performs no repository operation at all, whatever
the repository lookups would have returned. -/
theorem endpoint_missing_key_500 (env : Env) (hkey : env.nebiusApiKey = "") :
    endpointRun env = { status := 500, body := .err keyMissingMsg, ops := [] } ∧
      pyIn "NEBIUS_API_KEY is not set" keyMissingMsg ∧
      Op.getDefaultBranch ∉ (endpointRun env).ops ∧
      Op.getRepoTree ∉ (endpointRun env).ops ∧
      Op.collectContext ∉ (endpointRun env).ops := by
  have h : endpointRun env =
      { status := 500, body := .err keyMissingMsg, ops := [] } := by
    rw [endpointRun, if_pos hkey]
  rw [h]
  refine ⟨rfl, ?_, by decide, by decide, by decide⟩
  exact pyIn_append_left _ (pyIn_refl _)

/-- C10 witness environment: the key is empty and the repository does not even
exist (both lookups would report not-found). -/
def c10env : Env :=
  { nebiusApiKey := "", branchOutcome := .ghError "Repository not found",
    treeOutcome := .ghError "Repository not found",
    contextOutcome := .ok "ctx", llmOutcome := .ok ⟨"s", [], "t"⟩ }

/-- C10 witness: the key-missing reply at a concrete environment whose
repository lookups would have failed. -/
theorem endpoint_missing_key_500_witness :
    endpointRun c10env =
      { status := 500, body := .err keyMissingMsg, ops := [] } ∧
      pyIn "NEBIUS_API_KEY is not set" keyMissingMsg ∧
      Op.getDefaultBranch ∉ (endpointRun c10env).ops ∧
      Op.getRepoTree ∉ (endpointRun c10env).ops ∧
      Op.collectContext ∉ (endpointRun c10env).ops :=
  endpoint_missing_key_500 c10env rfl

/-- C9: the assembled context contains every input file's path, whatever the
content selection was (spec-modelled assembler: `app/repo_processor.py` is not
among the sources). -/
theorem assemble_contains_every_path (files : List RepoFile)
    (sel : List (RepoFile × String)) (f : RepoFile)
    (_hne : files ≠ []) (hf : f ∈ files) :
    pyIn f.path (assemble files sel) := by
  have h1 : pyIn f.path (joinLines (files.map fun g => g.path)) :=
    pyIn_joinLines (List.mem_map_of_mem _ hf)
  show pyIn f.path
    (("## Directory Structure\n" ++ joinLines (files.map fun g => g.path)) ++
      "\n" ++ renderContents sel)
  exact pyIn_append_left _ (pyIn_append_left _ (pyIn_append_right _ h1))

/-- File list for the C9 witness. -/
def c9files : List RepoFile := [⟨"README.md", 10⟩, ⟨"src/app.py", 20⟩]

/-- C9 witness: a concrete file's path occurs in the assembled context even
with an empty content selection. -/
theorem assemble_contains_every_path_witness :
    pyIn (RepoFile.mk "src/app.py" 20).path (assemble c9files []) :=
  assemble_contains_every_path c9files [] ⟨"src/app.py", 20⟩ (by decide)
    (by decide)

end GhSummarizer
